import Mathlib

/-!
Verification development for the JUTTA LAGANI storefront
(`src/app.py`, `src/models.py`, `src/config.py`).

The SQLAlchemy data model is shallowly embedded as Lean structures, the
database as lists of rows plus autoincrement counters.  Python ints are
`Int`/`Nat`; SQL `Float` money columns are embedded as `Rat` (the float
literal `0.10` in `checkout` becomes the rational `10/100`; none of the
properties below depend on float rounding).  Each route handler that
mutates state is embedded as a pure function from the database (and the
request's data) to the new database together with an outcome tag that
records which flash/redirect branch was taken.
-/

namespace JuttaLagani

/-- `models.User` — the columns the verified routes read or write. -/
structure User where
  id : Nat
  username : String
  email : String
  password_hash : String
  full_name : Option String
  phone : Option String
  address : Option String
  is_admin : Bool
  is_master_admin : Bool
  deriving DecidableEq

/-- `models.Product` — the columns set by `admin_product_add` /
`admin_product_edit` plus the ones read by the cart/checkout routes. -/
structure Product where
  id : Nat
  name : String
  description : String
  price : Rat
  original_price : Option Rat
  category : String
  subcategory : Option String
  brand : Option String
  color : Option String
  size : Option String
  material : Option String
  stock : Int
  is_available : Bool
  image : String
  deriving DecidableEq

/-- `models.Order` — the columns written by `checkout`. -/
structure Order where
  id : Nat
  order_number : String
  status : String
  subtotal : Rat
  shipping_cost : Rat
  tax : Rat
  total_amount : Rat
  shipping_name : String
  shipping_address : String
  shipping_city : String
  shipping_phone : String
  payment_method : String
  payment_status : String
  user_id : Nat
  deriving DecidableEq

/-- `models.OrderItem` — the frozen per-line snapshot of an order. -/
structure OrderItem where
  id : Nat
  quantity : Int
  unit_price : Rat
  total_price : Rat
  product_name : String
  product_image : String
  order_id : Nat
  product_id : Nat
  deriving DecidableEq

/-- `models.CartItem` — one persisted cart row of an authenticated user. -/
structure CartItem where
  id : Nat
  quantity : Int
  size : Option String
  color : Option String
  user_id : Nat
  product_id : Nat
  deriving DecidableEq

/-- `models.WishlistItem` — one `(user, product)` wishlist row. -/
structure WishlistItem where
  id : Nat
  user_id : Nat
  product_id : Nat
  deriving DecidableEq

/-- One entry of the anonymous session cart
(`session['cart']`: `{id, product_id, quantity, size, color}`). -/
structure SessionCartEntry where
  id : Nat
  product_id : Nat
  quantity : Int
  size : Option String
  color : Option String
  deriving DecidableEq

/-- The relational store: one list per table, plus the autoincrement
counter of each table's surrogate primary key. -/
structure DB where
  users : List User
  products : List Product
  orders : List Order
  order_items : List OrderItem
  cart_items : List CartItem
  wishlist_items : List WishlistItem
  next_user_id : Nat
  next_order_id : Nat
  next_order_item_id : Nat
  next_cart_item_id : Nat
  next_wishlist_item_id : Nat
  deriving DecidableEq

/-- `config.Config.FREE_SHIPPING_AMOUNT`. -/
def FREE_SHIPPING_AMOUNT : Rat := 1000

/-- `config.Config.SHIPPING_COST`.  Note: the route handlers never read
this constant — `cart` and `checkout` hard-code the flat fee `100`. -/
def SHIPPING_COST : Rat := 150

/-- `Product.query.get(pid)` — primary-key lookup. -/
def findProduct (products : List Product) (pid : Nat) : Option Product :=
  products.find? (fun p => p.id = pid)

/-- One element of the list returned by `get_cart_items`: a cart line
resolved against the catalog, carrying its computed line total. -/
structure ResolvedLine where
  id : Nat
  product : Product
  quantity : Int
  size : Option String
  color : Option String
  total_price : Rat
  deriving DecidableEq

/-- `get_cart_items`, authenticated branch: the user's `CartItem` rows,
each resolved via its `product` relationship; `total_price` is the
`CartItem.total_price` property, `product.price * quantity`.  (Rows whose
product is missing cannot arise under the `product_id` foreign key;
they are dropped here.) -/
def get_cart_items_user (db : DB) (uid : Nat) : List ResolvedLine :=
  (db.cart_items.filter (fun it => it.user_id = uid)).filterMap fun it =>
    (findProduct db.products it.product_id).map fun p =>
      { id := it.id, product := p, quantity := it.quantity,
        size := it.size, color := it.color,
        total_price := p.price * (it.quantity : Rat) }

/-- `get_cart_items`, anonymous branch: each session entry is re-fetched
from the catalog; entries whose product no longer exists are silently
dropped. -/
def get_cart_items_session (products : List Product)
    (sess : List SessionCartEntry) : List ResolvedLine :=
  sess.filterMap fun it =>
    (findProduct products it.product_id).map fun p =>
      { id := it.id, product := p, quantity := it.quantity,
        size := it.size, color := it.color,
        total_price := p.price * (it.quantity : Rat) }

/-- `get_cart_total`: `sum(item['total_price'] for item in items)`. -/
def cartTotalOf (lines : List ResolvedLine) : Rat :=
  (lines.map (fun l => l.total_price)).sum

/-- `checkout`: `shipping = 0 if cart_total >= 1000 else 100`. -/
def checkoutShipping (cart_total : Rat) : Rat :=
  if cart_total ≥ 1000 then 0 else 100

/-- `checkout`: `tax = cart_total * 0.10`. -/
def checkoutTax (cart_total : Rat) : Rat :=
  cart_total * (10 / 100)

/-- `checkout`: `final_total = cart_total + shipping + tax`. -/
def checkoutFinalTotal (cart_total : Rat) : Rat :=
  cart_total + checkoutShipping cart_total + checkoutTax cart_total

/-- Replace the first element satisfying `p` by its image under `f`
(SQLAlchemy's `.first()` row followed by an in-place update). -/
def updateFirst (p : α → Bool) (f : α → α) : List α → List α
  | [] => []
  | x :: xs => if p x then f x :: xs else x :: updateFirst p f xs

/-- The fields of `CheckoutForm` (all validated `DataRequired`). -/
structure CheckoutForm where
  shipping_name : String
  shipping_address : String
  shipping_city : String
  shipping_phone : String
  payment_method : String
  deriving DecidableEq

/-- The stock-decrement loop of `checkout`: for each cart line,
`product.stock -= item['quantity']` on the referenced catalog row. -/
def decStock (products : List Product) : List ResolvedLine → List Product
  | [] => products
  | l :: ls =>
      decStock
        (products.map fun p =>
          if p.id = l.product.id then { p with stock := p.stock - l.quantity } else p)
        ls

/-- The order-line creation loop of `checkout`: one frozen `OrderItem`
snapshot per cart line, ids assigned by autoincrement. -/
def mkOrderItems (oid : Nat) (startId : Nat) : List ResolvedLine → List OrderItem
  | [] => []
  | l :: ls =>
      { id := startId, quantity := l.quantity, unit_price := l.product.price,
        total_price := l.total_price, product_name := l.product.name,
        product_image := l.product.image, order_id := oid,
        product_id := l.product.id } :: mkOrderItems oid (startId + 1) ls

/-- The `Order(...)` header built by `checkout` from the computed totals
and the submitted shipping/payment fields. -/
def mkOrder (db : DB) (uid : Nat) (f : CheckoutForm) (order_number : String)
    (cart_total : Rat) : Order :=
  { id := db.next_order_id, order_number := order_number, status := "pending",
    subtotal := cart_total, shipping_cost := checkoutShipping cart_total,
    tax := checkoutTax cart_total, total_amount := checkoutFinalTotal cart_total,
    shipping_name := f.shipping_name, shipping_address := f.shipping_address,
    shipping_city := f.shipping_city, shipping_phone := f.shipping_phone,
    payment_method := f.payment_method, payment_status := "pending",
    user_id := uid }

/-- `checkout`, from the start of the handler through the FIRST
`db.session.commit()`: the empty-cart guard, then the order header, the
order-line snapshots and the stock decrements, persisted as one unit.
The cart rows are still present at this point. -/
def checkoutCommit1 (db : DB) (uid : Nat) (f : CheckoutForm)
    (order_number : String) : Option DB :=
  let lines := get_cart_items_user db uid
  if lines.isEmpty then none
  else
    some { db with
      orders := db.orders ++ [mkOrder db uid f order_number (cartTotalOf lines)],
      order_items := db.order_items ++ mkOrderItems db.next_order_id db.next_order_item_id lines,
      products := decStock db.products lines,
      next_order_id := db.next_order_id + 1,
      next_order_item_id := db.next_order_item_id + lines.length }

/-- `CartItem.query.filter_by(user_id=...).delete()` — the cart-clearing
step of `checkout` (and the body of `clear_cart`). -/
def clearUserCart (db : DB) (uid : Nat) : DB :=
  { db with cart_items := db.cart_items.filter (fun it => ¬ it.user_id = uid) }

/-- `checkout` on a valid submission, both commits succeeding: first
commit (header + lines + stock), then the cart-clearing commit.  Returns
the new database and the created order's id, or `none` when the cart is
empty (flash + redirect, no state change). -/
def checkout (db : DB) (uid : Nat) (f : CheckoutForm)
    (order_number : String) : Option (DB × Nat) :=
  (checkoutCommit1 db uid f order_number).map fun db1 =>
    (clearUserCart db1 uid, db.next_order_id)

/-- The two places a `checkout` attempt can fail, relative to its two
`db.session.commit()` calls.  The 500 handler `internal_error` calls
`db.session.rollback()`, so uncommitted changes are discarded. -/
inductive CheckoutFailure where
  | beforeFirstCommit
  | betweenCommits
  deriving DecidableEq

/-- The database state visible after a FAILED `checkout` attempt:
a failure anywhere before the first commit rolls everything back; a
failure of the separate cart-clearing commit leaves the first commit's
writes (header, lines, stock) in place with the cart intact. -/
def checkoutFailState (db : DB) (uid : Nat) (f : CheckoutForm)
    (order_number : String) : CheckoutFailure → DB
  | .beforeFirstCommit => db
  | .betweenCommits => (checkoutCommit1 db uid f order_number).getD db

/-- The outcome tag of `add_to_cart` (which flash/redirect was taken). -/
inductive AddToCartOutcome where
  | notFound
  | stockWarning
  | updated
  | added
  deriving DecidableEq

/-- `add_to_cart`, authenticated branch: 404 on a missing product, the
`product.stock < quantity` guard, then merge into the existing
`(user_id, product_id)` row or insert a fresh row. -/
def add_to_cart_user (db : DB) (uid pid : Nat) (quantity : Int)
    (size color : Option String) : AddToCartOutcome × DB :=
  match findProduct db.products pid with
  | none => (.notFound, db)
  | some p =>
    if p.stock < quantity then (.stockWarning, db)
    else
      match db.cart_items.find? (fun it => it.user_id = uid ∧ it.product_id = pid) with
      | some _ =>
          (.updated, { db with
            cart_items := updateFirst
              (fun it => it.user_id = uid ∧ it.product_id = pid)
              (fun it => { it with quantity := it.quantity + quantity })
              db.cart_items })
      | none =>
          (.added, { db with
            cart_items := db.cart_items ++
              [{ id := db.next_cart_item_id, quantity := quantity, size := size,
                 color := color, user_id := uid, product_id := pid }],
            next_cart_item_id := db.next_cart_item_id + 1 })

/-- `add_to_cart`, anonymous branch: the same stock guard, then merge
into the first session entry with this `product_id` (the loop updates
the first match and breaks) or append `{'id': len(cart)+1, ...}`. -/
def add_to_cart_session (products : List Product) (cart : List SessionCartEntry)
    (pid : Nat) (quantity : Int) (size color : Option String) :
    AddToCartOutcome × List SessionCartEntry :=
  match findProduct products pid with
  | none => (.notFound, cart)
  | some p =>
    if p.stock < quantity then (.stockWarning, cart)
    else if (cart.find? (fun it => it.product_id = pid)).isSome then
      (.updated, updateFirst (fun it => it.product_id = pid)
        (fun it => { it with quantity := it.quantity + quantity }) cart)
    else
      (.added, cart ++
        [{ id := cart.length + 1, product_id := pid, quantity := quantity,
           size := size, color := color }])

/-- `update_cart`, authenticated branch: set the owned row's quantity,
or delete the row when the submitted quantity is not positive. -/
def update_cart_user (db : DB) (uid cart_item_id : Nat) (quantity : Int) : DB :=
  match db.cart_items.find? (fun it => it.id = cart_item_id) with
  | none => db
  | some it =>
    if it.user_id = uid then
      if quantity > 0 then
        { db with
          cart_items :=
            updateFirst (fun x => x.id = cart_item_id)
              (fun x => { x with quantity := quantity }) db.cart_items }
      else
        { db with cart_items := db.cart_items.eraseP (fun x => x.id = cart_item_id) }
    else db

/-- `remove_from_cart`, authenticated branch. -/
def remove_from_cart_user (db : DB) (uid cart_item_id : Nat) : DB :=
  match db.cart_items.find? (fun it => it.id = cart_item_id) with
  | none => db
  | some it =>
    if it.user_id = uid then
      { db with cart_items := db.cart_items.eraseP (fun x => x.id = cart_item_id) }
    else db

/-- The outcome tag of `add_to_wishlist`. -/
inductive WishlistOutcome where
  | notFound
  | alreadyPresent
  | added
  deriving DecidableEq

/-- `add_to_wishlist`: 404 on a missing product; if a
`(user_id, product_id)` row already exists, flash "already in your
wishlist" and change nothing; otherwise insert exactly one row. -/
def add_to_wishlist (db : DB) (uid pid : Nat) : WishlistOutcome × DB :=
  match findProduct db.products pid with
  | none => (.notFound, db)
  | some _ =>
    match db.wishlist_items.find? (fun w => w.user_id = uid ∧ w.product_id = pid) with
    | some _ => (.alreadyPresent, db)
    | none =>
        (.added, { db with
          wishlist_items := db.wishlist_items ++
            [{ id := db.next_wishlist_item_id, user_id := uid, product_id := pid }],
          next_wishlist_item_id := db.next_wishlist_item_id + 1 })

/-- `remove_from_wishlist`: delete the row by primary key if it belongs
to the current user. -/
def remove_from_wishlist (db : DB) (uid wid : Nat) : DB :=
  match db.wishlist_items.find? (fun w => w.id = wid) with
  | none => db
  | some w =>
    if w.user_id = uid then
      { db with wishlist_items := db.wishlist_items.eraseP (fun x => x.id = wid) }
    else db

/-- The submitted fields of `RegistrationForm` (the form has no admin
field at all). -/
structure RegistrationForm where
  username : String
  email : String
  full_name : String
  phone : String
  password : String
  deriving DecidableEq

/-- The outcome tag of `register`. -/
inductive RegisterOutcome where
  | duplicate
  | registered
  deriving DecidableEq

/-- `register`: reject a duplicate email/username, otherwise create the
user with `is_admin` explicitly set to `False` and `is_master_admin`
left at its column default `False`.  The password-hashing primitive
(werkzeug's `generate_password_hash`) is external and passed in as
`hash`. -/
def register (hash : String → String) (db : DB) (f : RegistrationForm) :
    RegisterOutcome × DB :=
  if (db.users.find? (fun u => u.email = f.email ∨ u.username = f.username)).isSome then
    (.duplicate, db)
  else
    (.registered, { db with
      users := db.users ++
        [{ id := db.next_user_id, username := f.username, email := f.email,
           password_hash := hash f.password, full_name := some f.full_name,
           phone := some f.phone, address := none,
           is_admin := false, is_master_admin := false }],
      next_user_id := db.next_user_id + 1 })

/-- The submitted fields of `ProductForm` (admin add/edit). -/
structure ProductForm where
  name : String
  description : String
  price : Rat
  original_price : Option Rat
  category : String
  subcategory : Option String
  brand : Option String
  color : Option String
  size : Option String
  material : Option String
  stock : Int
  is_available : Bool
  deriving DecidableEq

/-- `admin_product_add`: insert a new catalog row (image defaulted). -/
def admin_product_add (db : DB) (f : ProductForm) : DB :=
  { db with
    products := db.products ++
      [{ id := db.products.length + 1, name := f.name, description := f.description,
         price := f.price, original_price := f.original_price,
         category := f.category, subcategory := f.subcategory, brand := f.brand,
         color := f.color, size := f.size, material := f.material,
         stock := f.stock, is_available := f.is_available,
         image := "default-product.jpg" }] }

/-- `admin_product_edit`: overwrite the catalog row's form-backed
columns (name, description, price, original_price, category,
subcategory, brand, color, size, material, stock, is_available);
`image` and `id` are untouched. -/
def admin_product_edit (db : DB) (pid : Nat) (f : ProductForm) : DB :=
  { db with
    products :=
      updateFirst (fun p => p.id = pid)
        (fun p =>
          { p with
            name := f.name, description := f.description,
            price := f.price, original_price := f.original_price,
            category := f.category, subcategory := f.subcategory,
            brand := f.brand, color := f.color, size := f.size,
            material := f.material, stock := f.stock,
            is_available := f.is_available })
        db.products }

/-- `admin_product_delete`: delete the catalog row's cart references
(`CartItem.query.filter_by(product_id=...).delete()`), then the row
itself.  Order-line snapshot columns are never written. -/
def admin_product_delete (db : DB) (pid : Nat) : DB :=
  match findProduct db.products pid with
  | none => db
  | some _ =>
    { db with
      cart_items := db.cart_items.filter (fun it => ¬ it.product_id = pid),
      products := db.products.eraseP (fun p => p.id = pid) }

/-- `admin_update_order_status`: set the order's `status` column. -/
def admin_update_order_status (db : DB) (oid : Nat) (new_status : String) : DB :=
  { db with
    orders :=
      updateFirst (fun o => o.id = oid)
        (fun o => { o with status := new_status }) db.orders }

/-- `profile`: overwrite the current user's profile columns. -/
structure ProfileForm where
  username : String
  email : String
  full_name : String
  phone : String
  address : String
  deriving DecidableEq

/-- `profile` on a valid submission. -/
def profile_update (db : DB) (uid : Nat) (f : ProfileForm) : DB :=
  { db with
    users :=
      updateFirst (fun u => u.id = uid)
        (fun u =>
          { u with
            username := f.username, email := f.email,
            full_name := some f.full_name, phone := some f.phone,
            address := some f.address })
        db.users }

/-! ### Invariants and the request step relation -/

/-- Primary-key well-formedness of the two order tables: every existing
id is below its table's autoincrement counter (so freshly inserted rows
never collide with existing ones). -/
def DBWF (db : DB) : Prop :=
  (∀ o ∈ db.orders, o.id < db.next_order_id) ∧
  (∀ it ∈ db.order_items, it.order_id < db.next_order_id)

/-- The order invariant of the spec: every order's lines sum to its
`subtotal`, and every order line's `total_price` is
`quantity * unit_price`. -/
def OrdersInv (db : DB) : Prop :=
  (∀ o ∈ db.orders,
      ((db.order_items.filter (fun it => it.order_id = o.id)).map
        (fun it => it.total_price)).sum = o.subtotal) ∧
  (∀ it ∈ db.order_items, it.total_price = (it.quantity : Rat) * it.unit_price)

/-- At most one wishlist row per `(user, product)` pair. -/
def WishlistInv (db : DB) : Prop :=
  db.wishlist_items.Pairwise
    (fun a b => ¬ (a.user_id = b.user_id ∧ a.product_id = b.product_id))

/-- One state-changing request of the application: each constructor is
one of the embedded mutating route handlers (including a failed checkout
attempt, which may stop between the two commits). -/
inductive Step : DB → DB → Prop where
  | cart_add (db : DB) (uid pid : Nat) (q : Int) (s c : Option String) :
      Step db (add_to_cart_user db uid pid q s c).2
  | cart_update (db : DB) (uid cid : Nat) (q : Int) :
      Step db (update_cart_user db uid cid q)
  | cart_remove (db : DB) (uid cid : Nat) :
      Step db (remove_from_cart_user db uid cid)
  | cart_clear (db : DB) (uid : Nat) :
      Step db (clearUserCart db uid)
  | checkout_ok (db : DB) (uid : Nat) (f : CheckoutForm) (onum : String)
      (db' : DB) (oid : Nat) (h : checkout db uid f onum = some (db', oid)) :
      Step db db'
  | checkout_fail (db : DB) (uid : Nat) (f : CheckoutForm) (onum : String)
      (fl : CheckoutFailure) :
      Step db (checkoutFailState db uid f onum fl)
  | wishlist_add (db : DB) (uid pid : Nat) :
      Step db (add_to_wishlist db uid pid).2
  | wishlist_remove (db : DB) (uid wid : Nat) :
      Step db (remove_from_wishlist db uid wid)
  | register_user (hash : String → String) (db : DB) (f : RegistrationForm) :
      Step db (register hash db f).2
  | product_add (db : DB) (f : ProductForm) :
      Step db (admin_product_add db f)
  | product_edit (db : DB) (pid : Nat) (f : ProductForm) :
      Step db (admin_product_edit db pid f)
  | product_delete (db : DB) (pid : Nat) :
      Step db (admin_product_delete db pid)
  | order_status (db : DB) (oid : Nat) (s : String) :
      Step db (admin_update_order_status db oid s)
  | profile_edit (db : DB) (uid : Nat) (f : ProfileForm) :
      Step db (profile_update db uid f)

/-! ### Helper lemmas -/

theorem updateFirst_length (p : α → Bool) (f : α → α) (l : List α) :
    (updateFirst p f l).length = l.length := by
  induction l with
  | nil => rfl
  | cons a l ih =>
    unfold updateFirst
    by_cases h : p a <;> simp [h, ih]

theorem updateFirst_mem (p : α → Bool) (f : α → α) (l : List α) (x : α)
    (hx : x ∈ updateFirst p f l) : x ∈ l ∨ ∃ y ∈ l, p y ∧ x = f y := by
  induction l with
  | nil => cases hx
  | cons a l ih =>
    unfold updateFirst at hx
    by_cases h : p a
    · rw [if_pos h] at hx
      rcases List.mem_cons.1 hx with h1 | h1
      · exact Or.inr ⟨a, List.mem_cons_self a l, h, h1⟩
      · exact Or.inl (List.mem_cons_of_mem a h1)
    · rw [if_neg h] at hx
      rcases List.mem_cons.1 hx with h1 | h1
      · exact Or.inl (h1 ▸ List.mem_cons_self a l)
      · rcases ih h1 with h2 | ⟨y, hy, hpy, hxy⟩
        · exact Or.inl (List.mem_cons_of_mem a h2)
        · exact Or.inr ⟨y, List.mem_cons_of_mem a hy, hpy, hxy⟩

theorem updateFirst_of_find?_none (p : α → Bool) (f : α → α) (l : List α)
    (h : l.find? p = none) : updateFirst p f l = l := by
  induction l with
  | nil => rfl
  | cons a l ih =>
    rw [List.find?_cons] at h
    unfold updateFirst
    by_cases hp : p a
    · simp [hp] at h
    · simp only [if_neg hp]
      rw [ih (by simpa [hp] using h)]

theorem updateFirst_append_of_none (p : α → Bool) (f : α → α) (l₁ l₂ : List α)
    (h : l₁.find? p = none) :
    updateFirst p f (l₁ ++ l₂) = l₁ ++ updateFirst p f l₂ := by
  induction l₁ with
  | nil => rfl
  | cons a l ih =>
    rw [List.find?_cons] at h
    by_cases hp : p a
    · simp [hp] at h
    · simp only [List.cons_append]
      unfold updateFirst
      rw [if_neg hp, ih (by simpa [hp] using h)]
      cases l₂ <;> rfl

theorem updateFirst_of_filter_singleton (p : α → Bool) (f : α → α) (l : List α)
    (x : α) (h : l.filter p = [x]) :
    updateFirst p f l = l.map (fun a => if p a then f a else a) := by
  induction l with
  | nil => simp at h
  | cons a l ih =>
    rw [List.filter_cons] at h
    by_cases hp : p a
    · rw [if_pos hp] at h
      have hnil : ∀ b ∈ l, ¬ p b :=
        List.filter_eq_nil_iff.1 (List.cons_eq_cons.1 h).2
      unfold updateFirst
      rw [if_pos hp]
      simp only [List.map_cons, if_pos hp]
      congr 1
      calc l = l.map id := (List.map_id l).symm
        _ = l.map (fun a => if p a then f a else a) := by
            apply List.map_congr_left
            intro b hb
            simp [hnil b hb]
    · rw [if_neg hp] at h
      unfold updateFirst
      rw [if_neg hp]
      simp only [List.map_cons, if_neg hp]
      congr 1
      exact ih h

theorem filter_updateFirst_singleton (p : α → Bool) (f : α → α) (l : List α)
    (x : α) (h : l.filter p = [x]) (hfx : p (f x)) :
    (updateFirst p f l).filter p = [f x] := by
  induction l with
  | nil => simp at h
  | cons a l ih =>
    rw [List.filter_cons] at h
    by_cases hp : p a
    · rw [if_pos hp] at h
      have hax : a = x := (List.cons_eq_cons.1 h).1
      have hnil : l.filter p = [] := (List.cons_eq_cons.1 h).2
      unfold updateFirst
      rw [if_pos hp, List.filter_cons, hax, if_pos hfx, hnil]
    · rw [if_neg hp] at h
      unfold updateFirst
      rw [if_neg hp, List.filter_cons, if_neg hp]
      exact ih h

theorem mkOrderItems_mem (oid s : Nat) (ls : List ResolvedLine) (it : OrderItem)
    (h : it ∈ mkOrderItems oid s ls) :
    it.order_id = oid ∧ ∃ l ∈ ls, it.quantity = l.quantity ∧
      it.unit_price = l.product.price ∧ it.total_price = l.total_price := by
  induction ls generalizing s with
  | nil => cases h
  | cons l ls ih =>
    rcases List.mem_cons.1 h with h1 | h1
    · subst h1
      exact ⟨rfl, l, List.mem_cons_self l ls, rfl, rfl, rfl⟩
    · obtain ⟨ho, l', hl', hrest⟩ := ih (s + 1) h1
      exact ⟨ho, l', List.mem_cons_of_mem l hl', hrest⟩

theorem mkOrderItems_map_total (oid s : Nat) (ls : List ResolvedLine) :
    (mkOrderItems oid s ls).map (fun it => it.total_price) =
      ls.map (fun l => l.total_price) := by
  induction ls generalizing s with
  | nil => rfl
  | cons l ls ih =>
    simp only [mkOrderItems, List.map_cons]
    rw [ih]

/-- The total quantity the resolved cart orders for product `pid`
(the sum of the quantities of the cart lines referencing it). -/
def orderedQty (ls : List ResolvedLine) (pid : Nat) : Int :=
  ((ls.filter (fun l => l.product.id = pid)).map (fun l => l.quantity)).sum

theorem orderedQty_cons (l : ResolvedLine) (ls : List ResolvedLine) (pid : Nat) :
    orderedQty (l :: ls) pid =
      (if l.product.id = pid then l.quantity else 0) + orderedQty ls pid := by
  unfold orderedQty
  rw [List.filter_cons]
  by_cases h : l.product.id = pid
  · simp [h]
  · simp [h]

/-- The stock-decrement loop, described pointwise: each catalog row's
stock drops by exactly the total quantity the cart orders for it (rows
the cart does not reference are unchanged). -/
theorem decStock_eq_map (ls : List ResolvedLine) (ps : List Product) :
    decStock ps ls =
      ps.map (fun p => { p with stock := p.stock - orderedQty ls p.id }) := by
  induction ls generalizing ps with
  | nil =>
    show ps = _
    calc ps = ps.map id := (List.map_id ps).symm
      _ = _ := by
        apply List.map_congr_left
        intro p _
        show p = { p with stock := p.stock - orderedQty [] p.id }
        have h0 : orderedQty [] p.id = 0 := rfl
        rw [h0, sub_zero]
  | cons l ls ih =>
    show decStock (ps.map fun p =>
        if p.id = l.product.id then { p with stock := p.stock - l.quantity } else p) ls = _
    rw [ih, List.map_map]
    apply List.map_congr_left
    intro p _
    simp only [Function.comp_apply]
    by_cases hid : p.id = l.product.id
    · rw [if_pos hid, orderedQty_cons, if_pos hid.symm]
      dsimp only
      rw [sub_sub]
    · rw [if_neg hid, orderedQty_cons, if_neg (fun hc => hid hc.symm), zero_add]

theorem get_cart_items_user_line (db : DB) (uid : Nat) (l : ResolvedLine)
    (h : l ∈ get_cart_items_user db uid) :
    l.total_price = l.product.price * (l.quantity : Rat) := by
  unfold get_cart_items_user at h
  rw [List.mem_filterMap] at h
  obtain ⟨it, _, hf⟩ := h
  cases ho : findProduct db.products it.product_id with
  | none => rw [ho] at hf; cases hf
  | some p =>
    rw [ho] at hf
    rw [Option.map_some'] at hf
    cases Option.some.injEq .. ▸ hf
    rfl

theorem inv_frame {db db' : DB} (ho : db'.orders = db.orders)
    (hi : db'.order_items = db.order_items) (hn : db'.next_order_id = db.next_order_id)
    (hwf : DBWF db) (hinv : OrdersInv db) : OrdersInv db' ∧ DBWF db' := by
  unfold OrdersInv DBWF at *
  rw [ho, hi, hn]
  exact ⟨hinv, hwf⟩

theorem add_to_cart_user_fields (db : DB) (uid pid : Nat) (q : Int)
    (s c : Option String) :
    ((add_to_cart_user db uid pid q s c).2).orders = db.orders ∧
    ((add_to_cart_user db uid pid q s c).2).order_items = db.order_items ∧
    ((add_to_cart_user db uid pid q s c).2).next_order_id = db.next_order_id ∧
    ((add_to_cart_user db uid pid q s c).2).wishlist_items = db.wishlist_items ∧
    ((add_to_cart_user db uid pid q s c).2).products = db.products := by
  unfold add_to_cart_user
  cases findProduct db.products pid with
  | none => exact ⟨rfl, rfl, rfl, rfl, rfl⟩
  | some p =>
    dsimp only
    by_cases hs : p.stock < q
    · rw [if_pos hs]; exact ⟨rfl, rfl, rfl, rfl, rfl⟩
    · rw [if_neg hs]
      cases db.cart_items.find? (fun it => it.user_id = uid ∧ it.product_id = pid) with
      | none => exact ⟨rfl, rfl, rfl, rfl, rfl⟩
      | some it => exact ⟨rfl, rfl, rfl, rfl, rfl⟩

theorem update_cart_user_fields (db : DB) (uid cid : Nat) (q : Int) :
    (update_cart_user db uid cid q).orders = db.orders ∧
    (update_cart_user db uid cid q).order_items = db.order_items ∧
    (update_cart_user db uid cid q).next_order_id = db.next_order_id ∧
    (update_cart_user db uid cid q).wishlist_items = db.wishlist_items := by
  unfold update_cart_user
  cases db.cart_items.find? (fun it => it.id = cid) with
  | none => exact ⟨rfl, rfl, rfl, rfl⟩
  | some it =>
    dsimp only
    by_cases hu : it.user_id = uid
    · rw [if_pos hu]
      by_cases hq : q > 0
      · rw [if_pos hq]; exact ⟨rfl, rfl, rfl, rfl⟩
      · rw [if_neg hq]; exact ⟨rfl, rfl, rfl, rfl⟩
    · rw [if_neg hu]; exact ⟨rfl, rfl, rfl, rfl⟩

theorem remove_from_cart_user_fields (db : DB) (uid cid : Nat) :
    (remove_from_cart_user db uid cid).orders = db.orders ∧
    (remove_from_cart_user db uid cid).order_items = db.order_items ∧
    (remove_from_cart_user db uid cid).next_order_id = db.next_order_id ∧
    (remove_from_cart_user db uid cid).wishlist_items = db.wishlist_items := by
  unfold remove_from_cart_user
  cases db.cart_items.find? (fun it => it.id = cid) with
  | none => exact ⟨rfl, rfl, rfl, rfl⟩
  | some it =>
    dsimp only
    by_cases hu : it.user_id = uid
    · rw [if_pos hu]; exact ⟨rfl, rfl, rfl, rfl⟩
    · rw [if_neg hu]; exact ⟨rfl, rfl, rfl, rfl⟩

theorem add_to_wishlist_fields (db : DB) (uid pid : Nat) :
    ((add_to_wishlist db uid pid).2).orders = db.orders ∧
    ((add_to_wishlist db uid pid).2).order_items = db.order_items ∧
    ((add_to_wishlist db uid pid).2).next_order_id = db.next_order_id := by
  unfold add_to_wishlist
  cases findProduct db.products pid with
  | none => exact ⟨rfl, rfl, rfl⟩
  | some p =>
    dsimp only
    cases db.wishlist_items.find? (fun w => w.user_id = uid ∧ w.product_id = pid) with
    | none => exact ⟨rfl, rfl, rfl⟩
    | some w => exact ⟨rfl, rfl, rfl⟩

theorem remove_from_wishlist_fields (db : DB) (uid wid : Nat) :
    (remove_from_wishlist db uid wid).orders = db.orders ∧
    (remove_from_wishlist db uid wid).order_items = db.order_items ∧
    (remove_from_wishlist db uid wid).next_order_id = db.next_order_id := by
  unfold remove_from_wishlist
  cases db.wishlist_items.find? (fun w => w.id = wid) with
  | none => exact ⟨rfl, rfl, rfl⟩
  | some w =>
    dsimp only
    by_cases hu : w.user_id = uid
    · rw [if_pos hu]; exact ⟨rfl, rfl, rfl⟩
    · rw [if_neg hu]; exact ⟨rfl, rfl, rfl⟩

theorem register_fields (hash : String → String) (db : DB) (f : RegistrationForm) :
    ((register hash db f).2).orders = db.orders ∧
    ((register hash db f).2).order_items = db.order_items ∧
    ((register hash db f).2).next_order_id = db.next_order_id ∧
    ((register hash db f).2).wishlist_items = db.wishlist_items := by
  unfold register
  by_cases hd : (db.users.find? (fun u => u.email = f.email ∨ u.username = f.username)).isSome
  · rw [if_pos hd]; exact ⟨rfl, rfl, rfl, rfl⟩
  · rw [if_neg hd]; exact ⟨rfl, rfl, rfl, rfl⟩

theorem admin_product_delete_fields (db : DB) (pid : Nat) :
    (admin_product_delete db pid).orders = db.orders ∧
    (admin_product_delete db pid).order_items = db.order_items ∧
    (admin_product_delete db pid).next_order_id = db.next_order_id ∧
    (admin_product_delete db pid).wishlist_items = db.wishlist_items := by
  unfold admin_product_delete
  cases findProduct db.products pid with
  | none => exact ⟨rfl, rfl, rfl, rfl⟩
  | some p => exact ⟨rfl, rfl, rfl, rfl⟩

/-- Unpack a successful first checkout commit into its explicit result. -/
theorem checkoutCommit1_some (db : DB) (uid : Nat) (f : CheckoutForm) (onum : String)
    (db1 : DB) (h : checkoutCommit1 db uid f onum = some db1) :
    get_cart_items_user db uid ≠ [] ∧
    db1 = { db with
      orders := db.orders ++
        [mkOrder db uid f onum (cartTotalOf (get_cart_items_user db uid))],
      order_items := db.order_items ++
        mkOrderItems db.next_order_id db.next_order_item_id (get_cart_items_user db uid),
      products := decStock db.products (get_cart_items_user db uid),
      next_order_id := db.next_order_id + 1,
      next_order_item_id := db.next_order_item_id + (get_cart_items_user db uid).length } := by
  rw [checkoutCommit1] at h
  by_cases he : (get_cart_items_user db uid).isEmpty
  · rw [if_pos he] at h; cases h
  · rw [if_neg he] at h
    refine ⟨by simpa using he, ?_⟩
    exact (Option.some.inj h).symm

/-- Unpack a fully successful checkout. -/
theorem checkout_some (db : DB) (uid : Nat) (f : CheckoutForm) (onum : String)
    (db' : DB) (oid : Nat) (h : checkout db uid f onum = some (db', oid)) :
    ∃ db1, checkoutCommit1 db uid f onum = some db1 ∧
      db' = clearUserCart db1 uid ∧ oid = db.next_order_id := by
  unfold checkout at h
  cases hc : checkoutCommit1 db uid f onum with
  | none => rw [hc] at h; cases h
  | some db1 =>
    rw [hc, Option.map_some'] at h
    simp only [Option.some.injEq, Prod.mk.injEq] at h
    exact ⟨db1, rfl, h.1.symm, h.2.symm⟩

/-- The first checkout commit creates an order satisfying the order
invariants and preserves them for all pre-existing orders. -/
theorem commit1_inv (db : DB) (uid : Nat) (f : CheckoutForm) (onum : String)
    (db1 : DB) (h : checkoutCommit1 db uid f onum = some db1)
    (hwf : DBWF db) (hinv : OrdersInv db) : OrdersInv db1 ∧ DBWF db1 := by
  obtain ⟨-, rfl⟩ := checkoutCommit1_some db uid f onum db1 h
  set lines := get_cart_items_user db uid with hlines
  refine ⟨⟨?_, ?_⟩, ?_, ?_⟩
  · intro o ho
    dsimp only at ho ⊢
    rcases List.mem_append.1 ho with ho1 | ho1
    · have hlt : o.id < db.next_order_id := hwf.1 o ho1
      have hnew : (mkOrderItems db.next_order_id db.next_order_item_id lines).filter
          (fun it => it.order_id = o.id) = [] := by
        apply List.filter_eq_nil_iff.2
        intro it hit
        have hid := (mkOrderItems_mem _ _ _ _ hit).1
        simp only [hid, decide_eq_true_eq]
        omega
      rw [List.filter_append, hnew, List.append_nil]
      exact hinv.1 o ho1
    · have ho2 : o = mkOrder db uid f onum (cartTotalOf lines) := by simpa using ho1
      subst ho2
      have hold : db.order_items.filter
          (fun it => it.order_id = (mkOrder db uid f onum (cartTotalOf lines)).id) = [] := by
        apply List.filter_eq_nil_iff.2
        intro it hit
        have hlt : it.order_id < db.next_order_id := hwf.2 it hit
        simp only [mkOrder, decide_eq_true_eq]
        omega
      have hself : (mkOrderItems db.next_order_id db.next_order_item_id lines).filter
          (fun it => it.order_id = (mkOrder db uid f onum (cartTotalOf lines)).id) =
          mkOrderItems db.next_order_id db.next_order_item_id lines := by
        apply List.filter_eq_self.2
        intro it hit
        have hid := (mkOrderItems_mem _ _ _ _ hit).1
        simp only [hid, mkOrder, decide_eq_true_eq]
      rw [List.filter_append, hold, hself, List.nil_append, mkOrderItems_map_total]
      rfl
  · intro it hit
    dsimp only at hit
    rcases List.mem_append.1 hit with hit1 | hit1
    · exact hinv.2 it hit1
    · obtain ⟨-, l, hl, hq, hu, ht⟩ := mkOrderItems_mem _ _ _ _ hit1
      rw [ht, hq, hu, get_cart_items_user_line db uid l hl, mul_comm]
  · intro o ho
    dsimp only at ho ⊢
    rcases List.mem_append.1 ho with ho1 | ho1
    · have := hwf.1 o ho1
      omega
    · have ho2 : o = mkOrder db uid f onum (cartTotalOf lines) := by simpa using ho1
      subst ho2
      simp only [mkOrder]
      omega
  · intro it hit
    dsimp only at hit ⊢
    rcases List.mem_append.1 hit with hit1 | hit1
    · have := hwf.2 it hit1
      omega
    · have := (mkOrderItems_mem _ _ _ _ hit1).1
      omega

/-! ### Sample data (used to instantiate the theorems below) -/

/-- A sample catalog row with stock 5. -/
def exProduct : Product :=
  { id := 1, name := "Traditional Mojari", description := "Handcrafted",
    price := 500, original_price := none, category := "shoes",
    subcategory := none, brand := none, color := none, size := none,
    material := none, stock := 5, is_available := true,
    image := "default-product.jpg" }

/-- A sample non-admin account. -/
def exUser : User :=
  { id := 1, username := "asha", email := "asha@example.com",
    password_hash := "h", full_name := none, phone := none, address := none,
    is_admin := false, is_master_admin := false }

/-- A store with one user whose cart holds 3 units of the sample
product (line total 1500). -/
def exDB : DB :=
  { users := [exUser], products := [exProduct], orders := [], order_items := [],
    cart_items := [{ id := 1, quantity := 3, size := some "7",
                     color := some "Maroon", user_id := 1, product_id := 1 }],
    wishlist_items := [], next_user_id := 2, next_order_id := 1,
    next_order_item_id := 1, next_cart_item_id := 2, next_wishlist_item_id := 1 }

/-- The same store with an empty cart. -/
def exDB0 : DB := { exDB with cart_items := [] }

def exCheckoutForm : CheckoutForm :=
  { shipping_name := "Asha", shipping_address := "Thali",
    shipping_city := "Kathmandu", shipping_phone := "9841", payment_method := "cod" }

def exRegForm : RegistrationForm :=
  { username := "bimal", email := "bimal@example.com", full_name := "Bimal",
    phone := "9742", password := "secret1" }

/-! ### Claims -/

/-- C1: for every checkout that commits an order (hence from a
non-empty resolved cart), the totals stored on the created order
satisfy: `subtotal` is the sum of the cart's line totals (each line
total being `quantity * item price`), `shipping` is `0` when
`subtotal ≥ FREE_SHIPPING_AMOUNT` and the flat fee `100` charged by the
handler otherwise, `tax = subtotal * 10 %`,
`total = subtotal + shipping + tax`, and `shipping = 0` iff
`subtotal ≥` the threshold. -/
theorem checkout_totals_correct (db : DB) (uid : Nat) (f : CheckoutForm)
    (onum : String) (db' : DB) (oid : Nat)
    (h : checkout db uid f onum = some (db', oid)) :
    get_cart_items_user db uid ≠ [] ∧
    (∀ l ∈ get_cart_items_user db uid,
        l.total_price = (l.quantity : Rat) * l.product.price) ∧
    ∃ o : Order, db'.orders = db.orders ++ [o] ∧
      o.subtotal = ((get_cart_items_user db uid).map (fun l => l.total_price)).sum ∧
      o.shipping_cost = (if o.subtotal ≥ FREE_SHIPPING_AMOUNT then 0 else 100) ∧
      o.tax = o.subtotal * (10 / 100) ∧
      o.total_amount = o.subtotal + o.shipping_cost + o.tax ∧
      (o.shipping_cost = 0 ↔ o.subtotal ≥ FREE_SHIPPING_AMOUNT) := by
  obtain ⟨db1, hc1, rfl, rfl⟩ := checkout_some db uid f onum db' oid h
  obtain ⟨hne, rfl⟩ := checkoutCommit1_some db uid f onum db1 hc1
  refine ⟨hne, fun l hl => by
      rw [get_cart_items_user_line db uid l hl, mul_comm], ?_⟩
  refine ⟨mkOrder db uid f onum (cartTotalOf (get_cart_items_user db uid)),
    rfl, rfl, ?_, rfl, rfl, ?_⟩
  · simp only [mkOrder, checkoutShipping, FREE_SHIPPING_AMOUNT]
  · simp only [mkOrder, checkoutShipping, FREE_SHIPPING_AMOUNT]
    by_cases ht : cartTotalOf (get_cart_items_user db uid) ≥ (1000 : Rat)
    · simp [ht]
    · simp only [if_neg ht]
      constructor
      · intro hc
        norm_num at hc
      · intro hc
        exact absurd hc ht

/-- C1 witness: a concrete successful checkout (cart = 3 × 500,
subtotal 1500 ≥ 1000, so shipping 0, tax 150, total 1650). -/
theorem checkout_totals_correct_witness :
    get_cart_items_user exDB 1 ≠ [] ∧
    (∀ l ∈ get_cart_items_user exDB 1,
        l.total_price = (l.quantity : Rat) * l.product.price) ∧
    ∃ o : Order,
      ((checkout exDB 1 exCheckoutForm "JL-20240101-1234").getD (exDB, 0)).1.orders =
        exDB.orders ++ [o] ∧
      o.subtotal = ((get_cart_items_user exDB 1).map (fun l => l.total_price)).sum ∧
      o.shipping_cost = (if o.subtotal ≥ FREE_SHIPPING_AMOUNT then 0 else 100) ∧
      o.tax = o.subtotal * (10 / 100) ∧
      o.total_amount = o.subtotal + o.shipping_cost + o.tax ∧
      (o.shipping_cost = 0 ↔ o.subtotal ≥ FREE_SHIPPING_AMOUNT) := by
  have h : checkout exDB 1 exCheckoutForm "JL-20240101-1234" =
      some ((checkout exDB 1 exCheckoutForm "JL-20240101-1234").getD (exDB, 0)) := by
    obtain ⟨v, hv⟩ := Option.isSome_iff_exists.1
      (rfl : (checkout exDB 1 exCheckoutForm "JL-20240101-1234").isSome = true)
    rw [hv]
    rfl
  exact checkout_totals_correct exDB 1 exCheckoutForm "JL-20240101-1234" _ _ h

/-- C2: after a successful checkout of a logged-in user, the created
order has status "pending", the user's persisted cart is empty, and
every catalog row's stock has dropped by exactly the total quantity the
cart ordered for it — so rows the cart did not reference are
unchanged. -/
theorem checkout_postcondition (db : DB) (uid : Nat) (f : CheckoutForm)
    (onum : String) (db' : DB) (oid : Nat)
    (h : checkout db uid f onum = some (db', oid)) :
    (∃ o : Order, db'.orders = db.orders ++ [o] ∧ o.status = "pending" ∧
        o.id = oid ∧ o.user_id = uid) ∧
    db'.cart_items.filter (fun it => it.user_id = uid) = [] ∧
    db'.products = db.products.map
      (fun p => { p with stock := p.stock - orderedQty (get_cart_items_user db uid) p.id }) ∧
    (∀ p ∈ db.products, orderedQty (get_cart_items_user db uid) p.id = 0 →
        p ∈ db'.products) := by
  obtain ⟨db1, hc1, rfl, rfl⟩ := checkout_some db uid f onum db' oid h
  obtain ⟨-, rfl⟩ := checkoutCommit1_some db uid f onum db1 hc1
  refine ⟨⟨mkOrder db uid f onum (cartTotalOf (get_cart_items_user db uid)),
    rfl, rfl, rfl, rfl⟩, ?_, ?_, ?_⟩
  · apply List.filter_eq_nil_iff.2
    intro it hit
    have hmem := List.mem_filter.1 hit
    simpa using hmem.2
  · exact decStock_eq_map (get_cart_items_user db uid) db.products
  · intro p hp hq
    have hfix : ({ p with stock := p.stock - orderedQty (get_cart_items_user db uid) p.id }
        : Product) = p := by
      rw [hq, sub_zero]
    have hmap := decStock_eq_map (get_cart_items_user db uid) db.products
    show p ∈ decStock db.products (get_cart_items_user db uid)
    rw [hmap]
    exact List.mem_map.2 ⟨p, hp, hfix⟩

/-- C2 witness: the concrete checkout of `exDB` (3 units of the stock-5
product): status "pending", cart emptied, stock 5 → 2. -/
theorem checkout_postcondition_witness :
    (∃ o : Order,
      ((checkout exDB 1 exCheckoutForm "JL-20240101-1235").getD (exDB, 0)).1.orders =
        exDB.orders ++ [o] ∧ o.status = "pending" ∧
      o.id = ((checkout exDB 1 exCheckoutForm "JL-20240101-1235").getD (exDB, 0)).2 ∧
      o.user_id = 1) ∧
    ((checkout exDB 1 exCheckoutForm "JL-20240101-1235").getD (exDB, 0)).1.cart_items.filter
      (fun it => it.user_id = 1) = [] ∧
    ((checkout exDB 1 exCheckoutForm "JL-20240101-1235").getD (exDB, 0)).1.products =
      exDB.products.map
        (fun p => { p with stock := p.stock - orderedQty (get_cart_items_user exDB 1) p.id }) ∧
    (∀ p ∈ exDB.products, orderedQty (get_cart_items_user exDB 1) p.id = 0 →
        p ∈ ((checkout exDB 1 exCheckoutForm "JL-20240101-1235").getD (exDB, 0)).1.products) := by
  have h : checkout exDB 1 exCheckoutForm "JL-20240101-1235" =
      some ((checkout exDB 1 exCheckoutForm "JL-20240101-1235").getD (exDB, 0)) := by
    obtain ⟨v, hv⟩ := Option.isSome_iff_exists.1
      (rfl : (checkout exDB 1 exCheckoutForm "JL-20240101-1235").isSome = true)
    rw [hv]
    rfl
  exact checkout_postcondition exDB 1 exCheckoutForm "JL-20240101-1235" _ _ h

/-- C3 counterexample: `checkout` issues TWO separate commits.  If the
first commit (order header + lines + stock) succeeds and the separate
cart-clearing commit then fails, the visible state is not the state
before the attempt: the order is committed (orders grew by one) while
the cart still holds its rows. -/
theorem checkout_atomicity_cex :
    checkoutFailState exDB 1 exCheckoutForm "JL-20240101-1236"
      CheckoutFailure.betweenCommits ≠ exDB ∧
    (checkoutFailState exDB 1 exCheckoutForm "JL-20240101-1236"
      CheckoutFailure.betweenCommits).orders.length = 1 ∧
    exDB.orders.length = 0 ∧
    (checkoutFailState exDB 1 exCheckoutForm "JL-20240101-1236"
      CheckoutFailure.betweenCommits).cart_items = exDB.cart_items ∧
    exDB.cart_items ≠ [] := by
  refine ⟨?_, rfl, rfl, rfl, by decide⟩
  intro hc
  have : (checkoutFailState exDB 1 exCheckoutForm "JL-20240101-1236"
      CheckoutFailure.betweenCommits).orders.length = exDB.orders.length := by rw [hc]
  simp only [show (checkoutFailState exDB 1 exCheckoutForm "JL-20240101-1236"
      CheckoutFailure.betweenCommits).orders.length = 1 from rfl] at this
  cases this

/-- C3 (amended): failures before the first commit roll back to exactly
the pre-attempt state, and the order header, order lines and stock
decrements form one atomic unit (all visible together or not at all);
but cart-clearing is a separate second commit, so its failure leaves
the committed order, lines and stock decrements visible while the cart
rows are still present. -/
theorem checkout_atomicity (db : DB) (uid : Nat) (f : CheckoutForm) (onum : String) :
    checkoutFailState db uid f onum CheckoutFailure.beforeFirstCommit = db ∧
    (get_cart_items_user db uid = [] →
        checkoutFailState db uid f onum CheckoutFailure.betweenCommits = db) ∧
    (get_cart_items_user db uid ≠ [] →
      (checkoutFailState db uid f onum CheckoutFailure.betweenCommits).orders =
        db.orders ++ [mkOrder db uid f onum (cartTotalOf (get_cart_items_user db uid))] ∧
      (checkoutFailState db uid f onum CheckoutFailure.betweenCommits).order_items =
        db.order_items ++ mkOrderItems db.next_order_id db.next_order_item_id
          (get_cart_items_user db uid) ∧
      (checkoutFailState db uid f onum CheckoutFailure.betweenCommits).products =
        decStock db.products (get_cart_items_user db uid) ∧
      (checkoutFailState db uid f onum CheckoutFailure.betweenCommits).cart_items =
        db.cart_items) := by
  refine ⟨rfl, ?_, ?_⟩
  · intro he
    show (checkoutCommit1 db uid f onum).getD db = db
    rw [checkoutCommit1]
    simp [he]
  · intro hne
    have he : (get_cart_items_user db uid).isEmpty = false := by
      simpa using hne
    have hstate : checkoutFailState db uid f onum CheckoutFailure.betweenCommits =
        { db with
          orders := db.orders ++
            [mkOrder db uid f onum (cartTotalOf (get_cart_items_user db uid))],
          order_items := db.order_items ++
            mkOrderItems db.next_order_id db.next_order_item_id (get_cart_items_user db uid),
          products := decStock db.products (get_cart_items_user db uid),
          next_order_id := db.next_order_id + 1,
          next_order_item_id := db.next_order_item_id +
            (get_cart_items_user db uid).length } := by
      show (checkoutCommit1 db uid f onum).getD db = _
      rw [checkoutCommit1]
      simp only [he, Bool.false_eq_true, if_false, Option.getD_some]
    rw [hstate]
    exact ⟨rfl, rfl, rfl, rfl⟩

/-- C3 witness: on the sample store, a pre-commit failure changes
nothing, and a failure after the first commit leaves the cart rows in
place (next to the already-committed order). -/
theorem checkout_atomicity_witness :
    checkoutFailState exDB 1 exCheckoutForm "JL-20240101-1237"
      CheckoutFailure.beforeFirstCommit = exDB ∧
    (checkoutFailState exDB 1 exCheckoutForm "JL-20240101-1237"
      CheckoutFailure.betweenCommits).cart_items = exDB.cart_items := by
  refine ⟨(checkout_atomicity exDB 1 exCheckoutForm "JL-20240101-1237").1, ?_⟩
  exact ((checkout_atomicity exDB 1 exCheckoutForm "JL-20240101-1237").2.2
    (by decide)).2.2.2

/-- C4: order-line snapshots are immutable under admin catalog
operations.  `admin_product_edit` (price, name, stock, …) and
`admin_product_delete` (which also deletes the item's cart references)
leave the orders and order-line tables — in particular every line's
`unit_price`, `total_price`, `product_name` and `product_image` —
exactly as they were. -/
theorem order_snapshots_immutable (db : DB) (pid : Nat) (f : ProductForm) :
    (admin_product_edit db pid f).orders = db.orders ∧
    (admin_product_edit db pid f).order_items = db.order_items ∧
    (admin_product_delete db pid).orders = db.orders ∧
    (admin_product_delete db pid).order_items = db.order_items := by
  obtain ⟨h1, h2, -, -⟩ := admin_product_delete_fields db pid
  exact ⟨rfl, rfl, h1, h2⟩

/-- C5: the order invariant — every order's lines sum to its
`subtotal`, every line's `total_price` is `quantity * unit_price` — is
established by `checkout` for the order it creates and preserved by
every modelled operation (together with primary-key well-formedness,
which makes it inductive). -/
theorem orders_sum_invariant (db db' : DB) (hstep : Step db db')
    (hwf : DBWF db) (hinv : OrdersInv db) : OrdersInv db' ∧ DBWF db' := by
  cases hstep with
  | cart_add _ uid pid q s c =>
      obtain ⟨h1, h2, h3, -, -⟩ := add_to_cart_user_fields db uid pid q s c
      exact inv_frame h1 h2 h3 hwf hinv
  | cart_update _ uid cid q =>
      obtain ⟨h1, h2, h3, -⟩ := update_cart_user_fields db uid cid q
      exact inv_frame h1 h2 h3 hwf hinv
  | cart_remove _ uid cid =>
      obtain ⟨h1, h2, h3, -⟩ := remove_from_cart_user_fields db uid cid
      exact inv_frame h1 h2 h3 hwf hinv
  | cart_clear _ uid =>
      exact inv_frame rfl rfl rfl hwf hinv
  | checkout_ok _ uid f onum _ oid h =>
      obtain ⟨db1, hc1, rfl, -⟩ := checkout_some db uid f onum db' oid h
      obtain ⟨hi1, hw1⟩ := commit1_inv db uid f onum db1 hc1 hwf hinv
      exact inv_frame rfl rfl rfl hw1 hi1
  | checkout_fail _ uid f onum fl =>
      cases fl with
      | beforeFirstCommit => exact ⟨hinv, hwf⟩
      | betweenCommits =>
          show OrdersInv ((checkoutCommit1 db uid f onum).getD db) ∧
            DBWF ((checkoutCommit1 db uid f onum).getD db)
          cases hc : checkoutCommit1 db uid f onum with
          | none => exact ⟨hinv, hwf⟩
          | some db1 => exact commit1_inv db uid f onum db1 hc hwf hinv
  | wishlist_add _ uid pid =>
      obtain ⟨h1, h2, h3⟩ := add_to_wishlist_fields db uid pid
      exact inv_frame h1 h2 h3 hwf hinv
  | wishlist_remove _ uid wid =>
      obtain ⟨h1, h2, h3⟩ := remove_from_wishlist_fields db uid wid
      exact inv_frame h1 h2 h3 hwf hinv
  | register_user hash _ f =>
      obtain ⟨h1, h2, h3, -⟩ := register_fields hash db f
      exact inv_frame h1 h2 h3 hwf hinv
  | product_add _ f =>
      exact inv_frame rfl rfl rfl hwf hinv
  | product_edit _ pid f =>
      exact inv_frame rfl rfl rfl hwf hinv
  | product_delete _ pid =>
      obtain ⟨h1, h2, h3, -⟩ := admin_product_delete_fields db pid
      exact inv_frame h1 h2 h3 hwf hinv
  | order_status _ oid s =>
      refine ⟨⟨?_, hinv.2⟩, ?_, hwf.2⟩
      · intro o ho
        rcases updateFirst_mem _ _ _ o ho with h1 | ⟨y, hy, -, rfl⟩
        · exact hinv.1 o h1
        · exact hinv.1 y hy
      · intro o ho
        rcases updateFirst_mem _ _ _ o ho with h1 | ⟨y, hy, -, rfl⟩
        · exact hwf.1 o h1
        · exact hwf.1 y hy
  | profile_edit _ uid f =>
      exact inv_frame rfl rfl rfl hwf hinv

/-- C5 witness: running the concrete checkout step on the sample store
(whose order tables are empty, so the invariants hold trivially before)
yields a state still satisfying the order invariants. -/
theorem orders_sum_invariant_witness :
    OrdersInv ((checkout exDB 1 exCheckoutForm "JL-20240101-1238").getD (exDB, 0)).1 ∧
    DBWF ((checkout exDB 1 exCheckoutForm "JL-20240101-1238").getD (exDB, 0)).1 := by
  have h : checkout exDB 1 exCheckoutForm "JL-20240101-1238" =
      some ((checkout exDB 1 exCheckoutForm "JL-20240101-1238").getD (exDB, 0)) := by
    obtain ⟨v, hv⟩ := Option.isSome_iff_exists.1
      (rfl : (checkout exDB 1 exCheckoutForm "JL-20240101-1238").isSome = true)
    rw [hv]
    rfl
  refine orders_sum_invariant exDB _
    (Step.checkout_ok exDB 1 exCheckoutForm "JL-20240101-1238" _ _ h) ?_ ?_
  · exact ⟨by simp [exDB], by simp [exDB]⟩
  · exact ⟨by simp [exDB], by simp [exDB]⟩

theorem find?_append_none (p : α → Bool) (l1 l2 : List α)
    (h : l1.find? p = none) : (l1 ++ l2).find? p = l2.find? p := by
  induction l1 with
  | nil => rfl
  | cons a l ih =>
    rw [List.find?_cons] at h
    by_cases hp : p a
    · simp [hp] at h
    · rw [List.cons_append, List.find?_cons]
      simp only [hp]
      exact ih (by simpa [hp] using h)

/-- C6: adding the same product twice merges into a single cart line
with the summed quantity, both for the authenticated user's persisted
cart and for the anonymous session cart; the repeated add does not grow
the number of cart lines (both adds passing the stock guard). -/
theorem add_to_cart_merges (db : DB) (uid pid : Nat) (q1 q2 : Int)
    (s1 c1 s2 c2 : Option String) (p : Product)
    (hp : findProduct db.products pid = some p)
    (hq1 : ¬ p.stock < q1) (hq2 : ¬ p.stock < q2)
    (hnone : db.cart_items.find?
      (fun it => it.user_id = uid ∧ it.product_id = pid) = none)
    (sess : List SessionCartEntry)
    (hsnone : sess.find? (fun it => it.product_id = pid) = none) :
    (((add_to_cart_user (add_to_cart_user db uid pid q1 s1 c1).2
          uid pid q2 s2 c2).2).cart_items.length = db.cart_items.length + 1 ∧
      (((add_to_cart_user (add_to_cart_user db uid pid q1 s1 c1).2
            uid pid q2 s2 c2).2).cart_items.filter
          (fun it => it.user_id = uid ∧ it.product_id = pid)).map
          (fun it => it.quantity) = [q1 + q2]) ∧
    ((add_to_cart_session db.products
        (add_to_cart_session db.products sess pid q1 s1 c1).2
        pid q2 s2 c2).2.length = sess.length + 1 ∧
      ((add_to_cart_session db.products
          (add_to_cart_session db.products sess pid q1 s1 c1).2
          pid q2 s2 c2).2.filter (fun it => it.product_id = pid)).map
          (fun it => it.quantity) = [q1 + q2]) := by
  have hfilnil : db.cart_items.filter
      (fun it => it.user_id = uid ∧ it.product_id = pid) = [] :=
    List.filter_eq_nil_iff.2 (List.find?_eq_none.1 hnone)
  have hsfilnil : sess.filter (fun it => it.product_id = pid) = [] :=
    List.filter_eq_nil_iff.2 (List.find?_eq_none.1 hsnone)
  constructor
  · -- authenticated cart
    set newIt : CartItem :=
      { id := db.next_cart_item_id, quantity := q1, size := s1,
        color := c1, user_id := uid, product_id := pid } with hnewIt
    have h1 : (add_to_cart_user db uid pid q1 s1 c1).2 = { db with
        cart_items := db.cart_items ++ [newIt],
        next_cart_item_id := db.next_cart_item_id + 1 } := by
      unfold add_to_cart_user
      rw [hp]
      dsimp only
      rw [if_neg hq1, hnone]
    have hfind2 : (db.cart_items ++ [newIt]).find?
        (fun it => it.user_id = uid ∧ it.product_id = pid) = some newIt := by
      rw [find?_append_none _ _ _ hnone, List.find?_cons]
      simp
    have h2 : (add_to_cart_user (add_to_cart_user db uid pid q1 s1 c1).2
        uid pid q2 s2 c2).2 = { db with
        cart_items := db.cart_items ++ [{ newIt with quantity := newIt.quantity + q2 }],
        next_cart_item_id := db.next_cart_item_id + 1 } := by
      rw [h1]
      unfold add_to_cart_user
      dsimp only
      rw [hp]
      dsimp only
      rw [if_neg hq2, hfind2]
      dsimp only
      rw [updateFirst_append_of_none _ _ _ _ hnone]
      congr 1
      unfold updateFirst
      rw [if_pos (by simp)]
    rw [h2]
    dsimp only
    constructor
    · simp
    · rw [List.filter_append, hfilnil, List.nil_append, List.filter_cons,
        if_pos (by simp)]
      rfl
  · -- session cart
    set newE : SessionCartEntry :=
      { id := sess.length + 1, product_id := pid,
        quantity := q1, size := s1, color := c1 } with hnewE
    have h1 : (add_to_cart_session db.products sess pid q1 s1 c1).2 =
        sess ++ [newE] := by
      unfold add_to_cart_session
      rw [hp]
      dsimp only
      rw [if_neg hq1, hsnone]
      simp only [Option.isSome_none, Bool.false_eq_true, if_false]
    have hfind2 : (sess ++ [newE]).find? (fun it => it.product_id = pid)
        = some newE := by
      rw [find?_append_none _ _ _ hsnone, List.find?_cons]
      simp
    have h2 : (add_to_cart_session db.products
        (add_to_cart_session db.products sess pid q1 s1 c1).2 pid q2 s2 c2).2 =
        sess ++ [{ newE with quantity := newE.quantity + q2 }] := by
      rw [h1]
      unfold add_to_cart_session
      rw [hp]
      dsimp only
      rw [if_neg hq2, hfind2]
      simp only [Option.isSome_some]
      rw [if_pos trivial]
      dsimp only
      rw [updateFirst_append_of_none _ _ _ _ hsnone]
      congr 1
      unfold updateFirst
      rw [if_pos (by simp)]
    rw [h2]
    constructor
    · simp
    · rw [List.filter_append, hsfilnil, List.nil_append, List.filter_cons,
        if_pos (by simp)]
      rfl

/-- C6 witness: two adds of product 1 (quantities 2 then 3, different
size/color the second time) to the initially empty cart and session
merge into one line of quantity 5 in both carts. -/
theorem add_to_cart_merges_witness :
    (((add_to_cart_user (add_to_cart_user exDB0 1 1 2 (some "7") (some "Maroon")).2
          1 1 3 (some "8") (some "Gold")).2).cart_items.length =
        exDB0.cart_items.length + 1 ∧
      (((add_to_cart_user (add_to_cart_user exDB0 1 1 2 (some "7") (some "Maroon")).2
            1 1 3 (some "8") (some "Gold")).2).cart_items.filter
          (fun it => it.user_id = 1 ∧ it.product_id = 1)).map
          (fun it => it.quantity) = [2 + 3]) ∧
    ((add_to_cart_session exDB0.products
        (add_to_cart_session exDB0.products [] 1 2 (some "7") (some "Maroon")).2
        1 3 (some "8") (some "Gold")).2.length = ([] : List SessionCartEntry).length + 1 ∧
      ((add_to_cart_session exDB0.products
          (add_to_cart_session exDB0.products [] 1 2 (some "7") (some "Maroon")).2
          1 3 (some "8") (some "Gold")).2.filter (fun it => it.product_id = 1)).map
          (fun it => it.quantity) = [2 + 3]) :=
  add_to_cart_merges exDB0 1 1 2 3 (some "7") (some "Maroon") (some "8") (some "Gold")
    exProduct (by decide) (by decide) (by decide) (by decide) [] (by decide)

/-- C7 counterexample: the stock guard compares only the REQUESTED
quantity against stock and ignores what the cart already holds.  With
stock 5 and 3 units already in the user's cart, a second add of 3 is
accepted (outcome `updated`) and leaves the cart line at quantity
6 > 5, refuting "after any accepted add-to-cart the affected cart
line's quantity does not exceed the product's current stock". -/
theorem add_to_cart_stock_cex :
    findProduct exDB.products 1 = some exProduct ∧
    exProduct.stock = 5 ∧
    (add_to_cart_user exDB 1 1 3 none none).1 = AddToCartOutcome.updated ∧
    ((add_to_cart_user exDB 1 1 3 none none).2.cart_items.map
      (fun it => it.quantity)) = [6] ∧
    ¬ ((6 : Int) ≤ exProduct.stock) := by
  decide

/-- C7 (amended): an add whose requested quantity exceeds current stock
is rejected with the stock warning and leaves the state unchanged; an
accepted add has its requested quantity ≤ stock, and a fresh line
(product not yet in the cart) gets exactly that quantity — but a merged
line's summed quantity may exceed stock, because the guard ignores the
quantity already in the cart. -/
theorem add_to_cart_stock_guard (db : DB) (uid pid : Nat) (q : Int)
    (s c : Option String) (p : Product)
    (hp : findProduct db.products pid = some p) :
    (p.stock < q →
      (add_to_cart_user db uid pid q s c).1 = AddToCartOutcome.stockWarning ∧
      (add_to_cart_user db uid pid q s c).2 = db) ∧
    (¬ p.stock < q → q ≤ p.stock ∧
      (db.cart_items.find?
          (fun it => it.user_id = uid ∧ it.product_id = pid) = none →
        (((add_to_cart_user db uid pid q s c).2).cart_items.filter
          (fun it => it.user_id = uid ∧ it.product_id = pid)).map
          (fun it => it.quantity) = [q])) := by
  constructor
  · intro hlt
    unfold add_to_cart_user
    rw [hp]
    dsimp only
    rw [if_pos hlt]
    exact ⟨rfl, rfl⟩
  · intro hge
    refine ⟨Int.not_lt.1 hge, ?_⟩
    intro hnone
    have h1 : (add_to_cart_user db uid pid q s c).2 = { db with
        cart_items := db.cart_items ++
          [{ id := db.next_cart_item_id, quantity := q, size := s,
             color := c, user_id := uid, product_id := pid }],
        next_cart_item_id := db.next_cart_item_id + 1 } := by
      unfold add_to_cart_user
      rw [hp]
      dsimp only
      rw [if_neg hge, hnone]
    rw [h1]
    dsimp only
    rw [List.filter_append,
      List.filter_eq_nil_iff.2 (List.find?_eq_none.1 hnone), List.nil_append,
      List.filter_cons, if_pos (by simp)]
    rfl

/-- C7 witness: on the empty-cart store (stock 5), adding 99 is
rejected with no state change, and adding 2 is accepted yielding a
single line of quantity 2. -/
theorem add_to_cart_stock_guard_witness :
    ((add_to_cart_user exDB0 1 1 99 none none).1 = AddToCartOutcome.stockWarning ∧
      (add_to_cart_user exDB0 1 1 99 none none).2 = exDB0) ∧
    ((2 : Int) ≤ exProduct.stock ∧
      (((add_to_cart_user exDB0 1 1 2 none none).2).cart_items.filter
        (fun it => it.user_id = 1 ∧ it.product_id = 1)).map
        (fun it => it.quantity) = [2]) := by
  constructor
  · exact (add_to_cart_stock_guard exDB0 1 1 99 none none exProduct (by decide)).1
      (by decide)
  · have h := (add_to_cart_stock_guard exDB0 1 1 2 none none exProduct (by decide)).2
      (by decide)
    exact ⟨h.1, h.2 (by decide)⟩

theorem wl_frame {db db' : DB}
    (h : db'.wishlist_items = db.wishlist_items) (hw : WishlistInv db) :
    WishlistInv db' := by
  unfold WishlistInv at *
  rw [h]
  exact hw

theorem checkoutCommit1_wl (db : DB) (uid : Nat) (f : CheckoutForm) (onum : String)
    (db1 : DB) (h : checkoutCommit1 db uid f onum = some db1) :
    db1.wishlist_items = db.wishlist_items := by
  obtain ⟨-, rfl⟩ := checkoutCommit1_some db uid f onum db1 h
  rfl

theorem remove_from_wishlist_wl (db : DB) (uid wid : Nat) :
    (remove_from_wishlist db uid wid).wishlist_items = db.wishlist_items ∨
    (remove_from_wishlist db uid wid).wishlist_items =
      db.wishlist_items.eraseP (fun x => x.id = wid) := by
  unfold remove_from_wishlist
  cases db.wishlist_items.find? (fun w => w.id = wid) with
  | none => exact Or.inl rfl
  | some w =>
    dsimp only
    by_cases hu : w.user_id = uid
    · rw [if_pos hu]; exact Or.inr rfl
    · rw [if_neg hu]; exact Or.inl rfl

/-- A store with product 1 already wishlisted by user 1. -/
def exDBW : DB :=
  { exDB0 with wishlist_items := [{ id := 1, user_id := 1, product_id := 1 }],
               next_wishlist_item_id := 2 }

/-- C8: wishlist add is idempotent — if a `(user, product)` row already
exists, the add reports "already present" and changes nothing, and
otherwise exactly one new row is appended; moreover every modelled
operation preserves "at most one wishlist row per `(user, product)`
pair". -/
theorem wishlist_add_idempotent (db : DB) (uid pid : Nat) (p : Product)
    (hp : findProduct db.products pid = some p) :
    ((∃ w ∈ db.wishlist_items, w.user_id = uid ∧ w.product_id = pid) →
      (add_to_wishlist db uid pid).1 = WishlistOutcome.alreadyPresent ∧
      (add_to_wishlist db uid pid).2 = db) ∧
    ((¬ ∃ w ∈ db.wishlist_items, w.user_id = uid ∧ w.product_id = pid) →
      (add_to_wishlist db uid pid).1 = WishlistOutcome.added ∧
      (add_to_wishlist db uid pid).2.wishlist_items = db.wishlist_items ++
        [{ id := db.next_wishlist_item_id, user_id := uid, product_id := pid }]) ∧
    (∀ d d' : DB, Step d d' → WishlistInv d → WishlistInv d') := by
  refine ⟨?_, ?_, ?_⟩
  · intro hex
    have hs : (db.wishlist_items.find?
        (fun w => w.user_id = uid ∧ w.product_id = pid)).isSome := by
      rw [List.find?_isSome]
      obtain ⟨w, hw, h1, h2⟩ := hex
      exact ⟨w, hw, by simp [h1, h2]⟩
    cases hf : db.wishlist_items.find?
        (fun w => w.user_id = uid ∧ w.product_id = pid) with
    | none => rw [hf] at hs; cases hs
    | some w =>
      unfold add_to_wishlist
      rw [hp]
      dsimp only
      rw [hf]
      exact ⟨rfl, rfl⟩
  · intro hnex
    have hf : db.wishlist_items.find?
        (fun w => w.user_id = uid ∧ w.product_id = pid) = none := by
      apply List.find?_eq_none.2
      intro w hw hpw
      exact hnex ⟨w, hw, by simpa using hpw⟩
    unfold add_to_wishlist
    rw [hp]
    dsimp only
    rw [hf]
    exact ⟨rfl, rfl⟩
  · intro d d' hstep hw
    cases hstep with
    | cart_add _ uid pid q s c =>
        exact wl_frame (add_to_cart_user_fields d uid pid q s c).2.2.2.1 hw
    | cart_update _ uid cid q =>
        exact wl_frame (update_cart_user_fields d uid cid q).2.2.2 hw
    | cart_remove _ uid cid =>
        exact wl_frame (remove_from_cart_user_fields d uid cid).2.2.2 hw
    | cart_clear _ uid => exact wl_frame rfl hw
    | checkout_ok _ uid f onum _ oid h =>
        obtain ⟨db1, hc1, rfl, -⟩ := checkout_some d uid f onum d' oid h
        exact wl_frame (checkoutCommit1_wl d uid f onum db1 hc1) hw
    | checkout_fail _ uid f onum fl =>
        cases fl with
        | beforeFirstCommit => exact hw
        | betweenCommits =>
            show WishlistInv ((checkoutCommit1 d uid f onum).getD d)
            cases hc : checkoutCommit1 d uid f onum with
            | none => exact hw
            | some db1 => exact wl_frame (checkoutCommit1_wl d uid f onum db1 hc) hw
    | wishlist_add _ uid pid =>
        unfold add_to_wishlist
        cases findProduct d.products pid with
        | none => exact hw
        | some p =>
          dsimp only
          cases hf : d.wishlist_items.find?
              (fun w => w.user_id = uid ∧ w.product_id = pid) with
          | some w => exact hw
          | none =>
            dsimp only
            unfold WishlistInv at hw ⊢
            dsimp only
            rw [List.pairwise_append]
            refine ⟨hw, List.pairwise_singleton _ _, ?_⟩
            intro a ha b hb
            have hb1 : b =
                { id := d.next_wishlist_item_id, user_id := uid,
                  product_id := pid } := by simpa using hb
            subst hb1
            have := List.find?_eq_none.1 hf a ha
            simpa using this
    | wishlist_remove _ uid wid =>
        rcases remove_from_wishlist_wl d uid wid with h | h
        · exact wl_frame h hw
        · unfold WishlistInv at hw ⊢
          rw [h]
          exact hw.sublist (List.eraseP_sublist _)
    | register_user hash _ f =>
        exact wl_frame (register_fields hash d f).2.2.2 hw
    | product_add _ f => exact wl_frame rfl hw
    | product_edit _ pid f => exact wl_frame rfl hw
    | product_delete _ pid =>
        exact wl_frame (admin_product_delete_fields d pid).2.2.2 hw
    | order_status _ oid s => exact wl_frame rfl hw
    | profile_edit _ uid f => exact wl_frame rfl hw

/-- C8 witness: on the store where product 1 is already wishlisted the
add is a reported no-op; on the store without it exactly one row is
appended; and the already-present add preserves the uniqueness
invariant. -/
theorem wishlist_add_idempotent_witness :
    ((add_to_wishlist exDBW 1 1).1 = WishlistOutcome.alreadyPresent ∧
      (add_to_wishlist exDBW 1 1).2 = exDBW) ∧
    ((add_to_wishlist exDB0 1 1).1 = WishlistOutcome.added ∧
      (add_to_wishlist exDB0 1 1).2.wishlist_items = exDB0.wishlist_items ++
        [{ id := exDB0.next_wishlist_item_id, user_id := 1, product_id := 1 }]) ∧
    WishlistInv (add_to_wishlist exDBW 1 1).2 := by
  refine ⟨(wishlist_add_idempotent exDBW 1 1 exProduct (by decide)).1 ?_,
    (wishlist_add_idempotent exDB0 1 1 exProduct (by decide)).2.1 ?_,
    (wishlist_add_idempotent exDB0 1 1 exProduct (by decide)).2.2 exDBW _
      (Step.wishlist_add exDBW 1 1) ?_⟩
  · exact ⟨{ id := 1, user_id := 1, product_id := 1 }, by decide, by decide⟩
  · intro hex
    obtain ⟨w, hw, -⟩ := hex
    simp [exDB0, exDB] at hw
  · unfold WishlistInv
    simp [exDBW]

/-- C9: public registration can never produce an admin account: every
user row present after `register` was either already there, or is the
new row, which has `is_admin = false` (set explicitly by the handler)
and `is_master_admin = false` (the column default), whatever the
submitted form data and hashing function. -/
theorem register_never_admin (hash : String → String) (db : DB)
    (f : RegistrationForm) :
    ∀ u ∈ ((register hash db f).2).users,
      u ∈ db.users ∨ (u.is_admin = false ∧ u.is_master_admin = false) := by
  intro u hu
  unfold register at hu
  by_cases hd : (db.users.find?
      (fun v => v.email = f.email ∨ v.username = f.username)).isSome
  · rw [if_pos hd] at hu
    exact Or.inl hu
  · rw [if_neg hd] at hu
    dsimp only at hu
    rcases List.mem_append.1 hu with h1 | h1
    · exact Or.inl h1
    · right
      have hu2 : u =
          { id := db.next_user_id, username := f.username, email := f.email,
            password_hash := hash f.password, full_name := some f.full_name,
            phone := some f.phone, address := none,
            is_admin := false, is_master_admin := false } := by
        simpa using h1
      subst hu2
      exact ⟨rfl, rfl⟩

/-- The account created by the concrete registration below. -/
def exNewUser : User :=
  { id := 2, username := "bimal", email := "bimal@example.com",
    password_hash := "secret1", full_name := some "Bimal",
    phone := some "9742", address := none,
    is_admin := false, is_master_admin := false }

/-- C9 witness: the row created by registering `exRegForm` (with the
identity standing in for the external hash) is a non-admin account. -/
theorem register_never_admin_witness :
    exNewUser ∈ ((register id exDB0 exRegForm).2).users ∧
    (exNewUser ∈ exDB0.users ∨
      (exNewUser.is_admin = false ∧ exNewUser.is_master_admin = false)) :=
  ⟨by decide, register_never_admin id exDB0 exRegForm exNewUser (by decide)⟩

theorem find?_of_filter_singleton (p : α → Bool) (l : List α) (x : α)
    (h : l.filter p = [x]) : l.find? p = some x := by
  induction l with
  | nil => simp at h
  | cons a l ih =>
    rw [List.filter_cons] at h
    rw [List.find?_cons]
    by_cases hp : p a
    · rw [if_pos hp] at h
      simp only [hp]
      rw [(List.cons_eq_cons.1 h).1]
    · rw [if_neg hp] at h
      simp only [hp]
      exact ih h

/-- C10: for an authenticated user, cart-line merging is keyed on
`(user, product)` only.  If the user's cart already holds exactly one
line for the product, an accepted add with ANY submitted size/color
merges into that line: the quantity is summed, the stored size and
color stay those recorded at the first add (the newly submitted
size/color appear nowhere), every other line is untouched, and the
number of lines is unchanged. -/
theorem add_to_cart_merge_key (db : DB) (uid pid : Nat) (q : Int)
    (s c : Option String) (p : Product) (it0 : CartItem)
    (hp : findProduct db.products pid = some p) (hq : ¬ p.stock < q)
    (hone : db.cart_items.filter
      (fun it => it.user_id = uid ∧ it.product_id = pid) = [it0]) :
    (add_to_cart_user db uid pid q s c).1 = AddToCartOutcome.updated ∧
    ((add_to_cart_user db uid pid q s c).2).cart_items =
      db.cart_items.map (fun it =>
        if it.user_id = uid ∧ it.product_id = pid then
          { it with quantity := it.quantity + q } else it) ∧
    ((((add_to_cart_user db uid pid q s c).2).cart_items.filter
        (fun it => it.user_id = uid ∧ it.product_id = pid)).map
        (fun it => (it.quantity, it.size, it.color))) =
      [(it0.quantity + q, it0.size, it0.color)] ∧
    ((add_to_cart_user db uid pid q s c).2).cart_items.length =
      db.cart_items.length := by
  have hfind := find?_of_filter_singleton _ _ _ hone
  have hpair : add_to_cart_user db uid pid q s c =
      (AddToCartOutcome.updated, { db with
        cart_items := updateFirst
          (fun it => it.user_id = uid ∧ it.product_id = pid)
          (fun it => { it with quantity := it.quantity + q })
          db.cart_items }) := by
    unfold add_to_cart_user
    rw [hp]
    dsimp only
    rw [if_neg hq, hfind]
  have hmem : it0 ∈ db.cart_items.filter
      (fun it => it.user_id = uid ∧ it.product_id = pid) := by
    rw [hone]
    exact List.mem_singleton.2 rfl
  have hp0 : (fun it : CartItem =>
      decide (it.user_id = uid ∧ it.product_id = pid)) it0 = true :=
    (List.mem_filter.1 hmem).2
  have hpf : (fun it : CartItem =>
      decide (it.user_id = uid ∧ it.product_id = pid))
        ({ it0 with quantity := it0.quantity + q }) = true := by
    simpa using hp0
  rw [hpair]
  refine ⟨rfl, ?_, ?_, ?_⟩
  · dsimp only
    rw [updateFirst_of_filter_singleton _ _ _ _ hone]
    apply List.map_congr_left
    intro it hit
    by_cases hc : it.user_id = uid ∧ it.product_id = pid
    · simp [hc]
    · simp [hc]
  · dsimp only
    rw [filter_updateFirst_singleton _ _ _ _ hone hpf]
    rfl
  · dsimp only
    exact updateFirst_length _ _ _

/-- C10 witness: the cart of `exDB` holds one line of product 1
(quantity 3, size "7", color "Maroon"); adding 2 more with size "9"
and color "Gold" merges into that line, which ends at quantity 5 while
keeping size "7" and color "Maroon"; the submitted "9"/"Gold" are
discarded and the line count is unchanged. -/
theorem add_to_cart_merge_key_witness :
    (add_to_cart_user exDB 1 1 2 (some "9") (some "Gold")).1 =
      AddToCartOutcome.updated ∧
    ((add_to_cart_user exDB 1 1 2 (some "9") (some "Gold")).2).cart_items =
      exDB.cart_items.map (fun it =>
        if it.user_id = 1 ∧ it.product_id = 1 then
          { it with quantity := it.quantity + 2 } else it) ∧
    ((((add_to_cart_user exDB 1 1 2 (some "9") (some "Gold")).2).cart_items.filter
        (fun it => it.user_id = 1 ∧ it.product_id = 1)).map
        (fun it => (it.quantity, it.size, it.color))) =
      [((3 : Int) + 2, some "7", some "Maroon")] ∧
    ((add_to_cart_user exDB 1 1 2 (some "9") (some "Gold")).2).cart_items.length =
      exDB.cart_items.length :=
  add_to_cart_merge_key exDB 1 1 2 (some "9") (some "Gold") exProduct
    { id := 1, quantity := 3, size := some "7", color := some "Maroon",
      user_id := 1, product_id := 1 }
    (by decide) (by decide) (by decide)

end JuttaLagani
